import Mathlib

set_option maxRecDepth 1000000

/-!
Verification of the T-REX deployment orchestration scripts.

Shallow embedding of the TypeScript deployment scripts
(`scripts/deployIdentity.ts`, `scripts/deployTREXSuiteInfrastructure.ts`,
`scripts/registerIdentity.ts`) and proofs of the specified properties.

Conventions of the embedding:
* JavaScript strings are Lean `String`s; byte sequences are `List Nat`
  (each element a byte value `< 256`); `uint256`/address numeric values are
  `Nat`.
* Fallible TypeScript code (functions that `throw`) is embedded as
  `Except String α`, carrying the thrown error message.
* The ethers.js address utilities (`isAddress`, `getAddress`, EIP-55
  checksumming) are embedded concretely, including a full executable
  Keccak-256, because the scripts' validation behaviour depends on them.
* Network effects are embedded as explicit inputs (query results supplied in
  an environment record) and explicit outputs (a trace of submitted calls).
-/

namespace TREX

/-! ## Byte-level helpers -/

/-- Big-endian byte encoding of `n` in exactly `w` bytes (used for ABI words). -/
def beBytes : Nat → Nat → List Nat
  | 0, _ => []
  | w + 1, n => beBytes w (n / 256) ++ [n % 256]

/-- Little-endian 8-byte encoding of a 64-bit lane value. -/
def leBytes8 (n : Nat) : List Nat :=
  (List.range 8).map fun i => n / 256 ^ i % 256

/-- Little-endian interpretation of a byte list as a lane value. -/
def leLane (bs : List Nat) : Nat :=
  bs.foldr (fun b acc => b + 256 * acc) 0

/-! ## Keccak-256 (the hash used by ethers.js for EIP-55 checksums)

A direct executable transcription of the Keccak-f[1600] permutation and the
sponge with rate 1088 and the original Keccak `0x01` multi-rate padding (the
variant Ethereum uses, distinct from NIST SHA-3). The state is 25 lanes of
64 bits stored as `List Nat` indexed by `x + 5 * y`. -/

/-- 64-bit left rotation. -/
def rotl64 (n r : Nat) : Nat :=
  ((n <<< r) ||| (n >>> (64 - r))) % (2 ^ 64)

/-- The 24 Keccak round constants. -/
def keccakRC : List Nat :=
  [0x0000000000000001, 0x0000000000008082, 0x800000000000808a, 0x8000000080008000,
   0x000000000000808b, 0x0000000080000001, 0x8000000080008081, 0x8000000000008009,
   0x000000000000008a, 0x0000000000000088, 0x0000000080008009, 0x000000008000000a,
   0x000000008000808b, 0x800000000000008b, 0x8000000000008089, 0x8000000000008003,
   0x8000000000008002, 0x8000000000000080, 0x000000000000800a, 0x800000008000000a,
   0x8000000080008081, 0x8000000000008080, 0x0000000080000001, 0x8000000080008008]

/-- The combined ρ/π data, indexed by the target lane `j = a + 5 * b` of
`B[a, b] := rotl(A[x, y], r[x, y])` with `a = y` and `b = (2x + 3y) mod 5`:
each entry is the source lane index `x + 5 * y` paired with the standard
rotation offset `r[x][y]`. -/
def keccakRhoPiPairs : List (Nat × Nat) :=
  [(0, 0), (6, 44), (12, 43), (18, 21), (24, 14),
   (3, 28), (9, 20), (10, 3), (16, 45), (22, 61),
   (1, 1), (7, 6), (13, 25), (19, 8), (20, 18),
   (4, 27), (5, 36), (11, 10), (17, 15), (23, 56),
   (2, 62), (8, 55), (14, 39), (15, 41), (21, 2)]

/-- Keccak θ step. -/
def keccakTheta (A : List Nat) : List Nat :=
  let C := (List.range 5).map fun x =>
    A.getD x 0 ^^^ A.getD (x + 5) 0 ^^^ A.getD (x + 10) 0 ^^^
      A.getD (x + 15) 0 ^^^ A.getD (x + 20) 0
  let D := (List.range 5).map fun x =>
    C.getD ((x + 4) % 5) 0 ^^^ rotl64 (C.getD ((x + 1) % 5) 0) 1
  (List.range 25).map fun j => A.getD j 0 ^^^ D.getD (j % 5) 0

/-- Keccak ρ and π steps combined, reading each target lane's source and
rotation from `keccakRhoPiPairs`. -/
def keccakRhoPi (A : List Nat) : List Nat :=
  keccakRhoPiPairs.map fun p => rotl64 (A.getD p.1 0) p.2

/-- Keccak χ step. -/
def keccakChi (B : List Nat) : List Nat :=
  (List.range 25).map fun j =>
    let x := j % 5
    let y := j / 5
    B.getD j 0 ^^^
      (((2 ^ 64 - 1) ^^^ B.getD ((x + 1) % 5 + 5 * y) 0) &&& B.getD ((x + 2) % 5 + 5 * y) 0)

/-- One Keccak round (θ, ρ, π, χ, ι). -/
def keccakRound (A : List Nat) (rc : Nat) : List Nat :=
  let B := keccakChi (keccakRhoPi (keccakTheta A))
  (B.getD 0 0 ^^^ rc) :: B.drop 1

/-- The full Keccak-f[1600] permutation. -/
def keccakF (A : List Nat) : List Nat :=
  keccakRC.foldl keccakRound A

/-- XOR one 136-byte rate block into the first 17 lanes of the state. -/
def keccakAbsorbBlock (st block : List Nat) : List Nat :=
  let lanes := (List.range 17).map fun i => leLane ((block.drop (8 * i)).take 8)
  (List.range 25).map fun j =>
    if j < 17 then st.getD j 0 ^^^ lanes.getD j 0 else st.getD j 0

/-- Keccak-256 of a byte sequence (Ethereum's `keccak256`). -/
def keccak256 (msg : List Nat) : List Nat :=
  let q := 136 - msg.length % 136
  let padded :=
    if q = 1 then msg ++ [0x81]
    else msg ++ [0x01] ++ List.replicate (q - 2) 0 ++ [0x80]
  let blocks := (List.range (padded.length / 136)).map fun i =>
    (padded.drop (136 * i)).take 136
  let final := blocks.foldl (fun st b => keccakF (keccakAbsorbBlock st b)) (List.replicate 25 0)
  ((List.range 4).map fun i => leBytes8 (final.getD i 0)).flatten

/-! ## ethers.js v5 address utilities

Concrete embedding of `ethers.utils.getAddress` / `ethers.utils.isAddress`
(the functions the scripts' `requireAddress` helpers call), including the
EIP-55 checksum computation and the ICAP branch. -/

/-- A hexadecimal digit (the character class `[0-9a-fA-F]`). -/
def isHexDigitChar (c : Char) : Bool :=
  c.isDigit || ('a' ≤ c && c ≤ 'f') || ('A' ≤ c && c ≤ 'F')

/-- The regex test `^(0x)?[0-9a-fA-F]{40}$` from ethers `getAddress`. -/
def matchesHexAddress (s : String) : Bool :=
  let cs := s.toList
  let body := if cs.take 2 = ['0', 'x'] then cs.drop 2 else cs
  body.length = 40 && body.all isHexDigitChar

/-- Embeds `if (address.substring(0, 2) !== "0x") { address = "0x" + address; }` -/
def ensure0x (s : String) : String :=
  if s.toList.take 2 = ['0', 'x'] then s else "0x" ++ s

/-- The regex test `/([A-F].*[a-f])|([a-f].*[A-F])/`: the string contains both
an uppercase and a lowercase hexadecimal letter (in either order). -/
def hasMixedCaseHex (s : String) : Bool :=
  let cs := s.toList
  (cs.any fun c => 'A' ≤ c && c ≤ 'F') && (cs.any fun c => 'a' ≤ c && c ≤ 'f')

/-- ethers `getChecksumAddress`: lowercase the 40-character body, hash its
ASCII bytes with Keccak-256, and uppercase each hex digit whose corresponding
hash nibble is at least 8 (EIP-55). -/
def getChecksumAddress (address : String) : String :=
  let chars := (address.toList.drop 2).map Char.toLower
  let hashed := keccak256 (chars.map Char.toNat)
  let cs := (List.range 40).map fun i =>
    let b := hashed.getD (i / 2) 0
    let nibble := if i % 2 = 0 then b / 16 else b % 16
    let c := chars.getD i ' '
    if 8 ≤ nibble then c.toUpper else c
  "0x" ++ String.mk cs

/-- Alphanumeric character (the class `[0-9A-Za-z]`). -/
def isBase36Char (c : Char) : Bool :=
  c.isDigit || c.isLower || c.isUpper

/-- The regex test `^XE[0-9]{2}[0-9A-Za-z]{30,31}$` for ICAP addresses. -/
def matchesIcapAddress (s : String) : Bool :=
  let cs := s.toList
  cs.take 2 = ['X', 'E'] &&
    ((cs.drop 2).take 2).all Char.isDigit &&
    ((cs.drop 4).all isBase36Char &&
      (cs.length = 34 || cs.length = 35))

/-- Numeric value of a base-36 digit after uppercasing (`0-9` → 0–9,
`A-Z` → 10–35). -/
def base36DigitVal (c : Char) : Nat :=
  if c.isDigit then c.toNat - '0'.toNat else c.toUpper.toNat - 'A'.toNat + 10

/-- ethers `ibanChecksum`: rotate the first four characters to the end with a
`"00"` checksum placeholder, expand letters to their two-digit values, reduce
the resulting decimal number modulo 97, and return `98 - remainder` as a
two-digit string. -/
def ibanChecksum (address : String) : String :=
  let cs := (address.toList.map Char.toUpper)
  let rotated := cs.drop 4 ++ cs.take 2 ++ ['0', '0']
  let expanded := rotated.foldl (fun acc c =>
    if c.isDigit then acc * 10 + (c.toNat - '0'.toNat)
    else acc * 100 + base36DigitVal c) 0
  let checksum := 98 - expanded % 97
  if checksum < 10 then "0" ++ toString checksum else toString checksum

/-- Lowercase hexadecimal digits of `n` (empty for 0, as in ethers
`_base36To16` before zero-padding). -/
def toHexDigits (n : Nat) : List Char :=
  (Nat.toDigits 16 n).map Char.toLower

/-- ethers `_base36To16` followed by left zero-padding to 40 characters. -/
def base36To16Padded (cs : List Char) : String :=
  let n := cs.foldl (fun acc c => acc * 36 + base36DigitVal c) 0
  let hex := if n = 0 then [] else toHexDigits n
  let padded := List.replicate (40 - hex.length) '0' ++ hex
  String.mk padded

/-- ethers v5 `getAddress`, as an `Except` carrying the error kind. -/
def getAddressE (address : String) : Except String String :=
  if matchesHexAddress address then
    let addr := ensure0x address
    let result := getChecksumAddress addr
    if hasMixedCaseHex addr && result ≠ addr then
      Except.error "bad address checksum"
    else
      Except.ok result
  else if matchesIcapAddress address then
    if String.mk ((address.toList.drop 2).take 2) ≠ ibanChecksum address then
      Except.error "bad icap checksum"
    else
      Except.ok (getChecksumAddress ("0x" ++ base36To16Padded (address.toList.drop 4)))
  else
    Except.error "invalid address"

/-- ethers v5 `isAddress`: `getAddress` does not throw. -/
def isAddress (address : String) : Bool :=
  match getAddressE address with
  | Except.ok _ => true
  | Except.error _ => false

/-- Embeds `ethers.constants.AddressZero`. -/
def addressZero : String := "0x0000000000000000000000000000000000000000"

/-! ## Shared script helpers -/

/-- Embeds `requireAddress` from `deployIdentity.ts` / `registerIdentity.ts`:
reject anything `isAddress` rejects with a labelled validation error, and
return the checksummed form otherwise. -/
def requireAddress (label : String) (value : String) : Except String String :=
  if !isAddress value then
    Except.error (label ++ " must be a valid Ethereum address")
  else
    getAddressE value

/-- JavaScript `String.prototype.trim` whitespace test (restricted to the
ASCII whitespace characters that can occur in these inputs). -/
def isJsWhitespace (c : Char) : Bool :=
  c = ' ' || c = '\t' || c = '\n' || c = '\r'

/-- JavaScript `value.trim()`. -/
def jsTrim (s : String) : String :=
  String.mk (((s.toList.dropWhile isJsWhitespace).reverse.dropWhile isJsWhitespace).reverse)

/-- JavaScript truthiness of an optional string (`undefined` and `""` are
falsy). -/
def jsTruthy : Option String → Bool
  | none => false
  | some s => s ≠ ""

/-! ## Deployment action sequences (C1)

The two suite-deployment functions are straight-line `await` sequences; their
submitted-transaction order is a compile-time constant, embedded here as a
list of actions in source order. -/

/-- One submitted transaction of a suite-deployment run. Payload strings
distinguish different targets of the same method. -/
inductive SuiteAction where
  | deployContract (contractName : String)
  | addAndUseTREXVersion
  | addTokenFactory
  | bindIdentityRegistry
  | tokenAddAgent (who : String)
  | irAddAgent (who : String)
  | addClaimTopic
  | addKey (onContract : String)
  | addTrustedIssuer
  | batchRegisterIdentity
  | addClaim (identity : String)
  | mint (recipient : String)
  | addAgentAdmin
  | unpause
  deriving DecidableEq, Repr

/-- The transactions submitted by `deployFullSuite` in
`scripts/deployIdentity.ts`, in source (`await`) order. -/
def deployFullSuiteActions : List SuiteAction :=
  [SuiteAction.deployContract "ClaimTopicsRegistry",
   SuiteAction.deployContract "TrustedIssuersRegistry",
   SuiteAction.deployContract "IdentityRegistryStorage",
   SuiteAction.deployContract "IdentityRegistry",
   SuiteAction.deployContract "ModularCompliance",
   SuiteAction.deployContract "Token",
   SuiteAction.deployContract "Identity",
   SuiteAction.deployContract "ImplementationAuthority",
   SuiteAction.deployContract "Factory",
   SuiteAction.deployContract "TREXImplementationAuthority",
   SuiteAction.addAndUseTREXVersion,
   SuiteAction.deployContract "TREXFactory",
   SuiteAction.addTokenFactory,
   SuiteAction.deployContract "ClaimTopicsRegistryProxy",
   SuiteAction.deployContract "TrustedIssuersRegistryProxy",
   SuiteAction.deployContract "IdentityRegistryStorageProxy",
   SuiteAction.deployContract "DefaultCompliance",
   SuiteAction.deployContract "IdentityRegistryProxy",
   SuiteAction.deployContract "IdentityProxy-tokenOID",
   SuiteAction.deployContract "TokenProxy",
   SuiteAction.deployContract "AgentManager",
   SuiteAction.bindIdentityRegistry,
   SuiteAction.tokenAddAgent "tokenAgent",
   SuiteAction.addClaimTopic,
   SuiteAction.deployContract "ClaimIssuer",
   SuiteAction.addKey "claimIssuerContract",
   SuiteAction.addTrustedIssuer,
   SuiteAction.deployContract "IdentityProxy-alice",
   SuiteAction.addKey "aliceIdentity",
   SuiteAction.deployContract "IdentityProxy-bob",
   SuiteAction.deployContract "IdentityProxy-charlie",
   SuiteAction.irAddAgent "tokenAgent",
   SuiteAction.irAddAgent "token",
   SuiteAction.batchRegisterIdentity,
   SuiteAction.addClaim "aliceIdentity",
   SuiteAction.addClaim "bobIdentity",
   SuiteAction.mint "aliceWallet",
   SuiteAction.mint "bobWallet",
   SuiteAction.addAgentAdmin,
   SuiteAction.tokenAddAgent "agentManager",
   SuiteAction.irAddAgent "agentManager",
   SuiteAction.unpause]

/-- The transactions submitted by `deployTREXSuiteInfrastructure` in
`scripts/deployTREXSuiteInfrastructure.ts`, in source order. The token is
left paused: the `unpause` call is commented out in the source. -/
def deployTREXSuiteInfrastructureActions : List SuiteAction :=
  [SuiteAction.deployContract "ClaimTopicsRegistry",
   SuiteAction.deployContract "TrustedIssuersRegistry",
   SuiteAction.deployContract "IdentityRegistryStorage",
   SuiteAction.deployContract "IdentityRegistry",
   SuiteAction.deployContract "ModularCompliance",
   SuiteAction.deployContract "Token",
   SuiteAction.deployContract "Identity",
   SuiteAction.deployContract "ImplementationAuthority",
   SuiteAction.deployContract "Factory",
   SuiteAction.deployContract "TREXImplementationAuthority",
   SuiteAction.addAndUseTREXVersion,
   SuiteAction.deployContract "TREXFactory",
   SuiteAction.addTokenFactory,
   SuiteAction.deployContract "ClaimTopicsRegistryProxy",
   SuiteAction.deployContract "TrustedIssuersRegistryProxy",
   SuiteAction.deployContract "IdentityRegistryStorageProxy",
   SuiteAction.deployContract "DefaultCompliance",
   SuiteAction.deployContract "IdentityRegistryProxy",
   SuiteAction.deployContract "IdentityProxy-tokenOID",
   SuiteAction.deployContract "TokenProxy",
   SuiteAction.deployContract "AgentManager",
   SuiteAction.bindIdentityRegistry,
   SuiteAction.tokenAddAgent "tokenAgent",
   SuiteAction.irAddAgent "tokenAgent",
   SuiteAction.irAddAgent "token",
   SuiteAction.addClaimTopic,
   SuiteAction.deployContract "ClaimIssuer",
   SuiteAction.addKey "claimIssuerContract",
   SuiteAction.addTrustedIssuer,
   SuiteAction.addAgentAdmin,
   SuiteAction.tokenAddAgent "agentManager",
   SuiteAction.irAddAgent "agentManager"]

/-- The suite-wiring steps named by the ordering invariant: storage binding,
agent grants on token and identity registry, claim-topic registration and
trusted-issuer registration. -/
def isWiringAction : SuiteAction → Bool
  | SuiteAction.bindIdentityRegistry => true
  | SuiteAction.tokenAddAgent _ => true
  | SuiteAction.irAddAgent _ => true
  | SuiteAction.addClaimTopic => true
  | SuiteAction.addTrustedIssuer => true
  | _ => false

/-- Every `unpause` occurrence in the run is the last action of the run and
comes strictly after every wiring action. -/
def unpauseOrderingOK (L : List SuiteAction) : Bool :=
  L.enum.all fun p =>
    !(decide (p.2 = SuiteAction.unpause)) ||
      (decide (p.1 = L.length - 1) &&
        (L.enum.all fun q => !(isWiringAction q.2) || decide (q.1 < p.1)))

/-! ## Role-to-signer resolution (C4)

Embedding of `resolveRoleSigner` from
`scripts/deployTREXSuiteInfrastructure.ts`. -/

/-- The four logical roles of `resolveRoleSigner`. -/
inductive RoleKey where
  | tokenIssuer
  | tokenAgent
  | tokenAdmin
  | claimIssuer
  deriving DecidableEq, Repr

/-- A signing identity: either a pooled Hardhat signer (by pool index) or a
wallet constructed from an explicit private key. -/
inductive SignerV where
  | hardhatSigner (idx : Nat)
  | walletSigner (privKey : String)
  deriving DecidableEq, Repr

/-- Embeds `resolveRoleSigner` with the environment lookup
`process.env[TREX_<ROLE>_PRIVATE_KEY]` supplied as `envKeyValue`. Returns the
resolved signer and whether the deployer-fallback warning was emitted.
An empty-string environment value is falsy in JavaScript and falls through. -/
def resolveRoleSigner (envKeyValue : Option String) (availableSigner : Option SignerV)
    (deployer : SignerV) : SignerV × Bool :=
  if jsTruthy envKeyValue then
    (SignerV.walletSigner (envKeyValue.getD ""), false)
  else
    match availableSigner with
    | some s => (s, false)
    | none => (deployer, true)

/-- The pool index each role reads in `deployTREXSuiteInfrastructure`
(`availableSigners[1]` … `availableSigners[4]`; the deployer is index 0). -/
def roleIndex : RoleKey → Nat
  | RoleKey.tokenIssuer => 1
  | RoleKey.tokenAgent => 2
  | RoleKey.tokenAdmin => 3
  | RoleKey.claimIssuer => 4

/-- The four role resolutions performed by `deployTREXSuiteInfrastructure`,
in source order, with the warning flag of each. -/
def resolveAllRoleSigners (env : RoleKey → Option String) (pool : List SignerV)
    (deployer : SignerV) : List (RoleKey × SignerV × Bool) :=
  [RoleKey.tokenIssuer, RoleKey.tokenAgent, RoleKey.tokenAdmin, RoleKey.claimIssuer].map
    fun r => (r, resolveRoleSigner (env r) pool[roleIndex r]? deployer)

/-- Number of deployer-fallback warnings emitted for a given role during one
run of `deployTREXSuiteInfrastructure`. -/
def warnCount (resolutions : List (RoleKey × SignerV × Bool)) (r : RoleKey) : Nat :=
  (resolutions.filter fun e => decide (e.1 = r) && e.2.2).length

/-! ## Claim digest and signature (C3)

The claim construction of `deployFullSuite`
(`scripts/deployIdentity.ts`):

```
signMessage(arrayify(keccak256(defaultAbiCoder.encode(
  ['address', 'uint256', 'bytes'], [identity, topic, data]))))
```

The ABI encoding is embedded concretely (byte-for-byte). The hash and the
ECDSA signature are embedded symbolically (as free constructors), since the
claim under verification concerns which message is signed and recovered, not
hash collisions: `symKeccak` is injective by construction, which models the
standard collision-freeness assumption on Keccak-256, and a signature is
recoverable exactly to the key that produced it, which models ECDSA public
key recovery. -/

/-- Embeds `defaultAbiCoder.encode(['address', 'uint256', 'bytes'], [i, t, d])`:
three head words (address, uint256, and the tail offset `0x60`), then the
`bytes` tail (length word followed by the data padded to a word boundary). -/
def abiEncodeClaim (identity topic : Nat) (data : List Nat) : List Nat :=
  beBytes 32 identity ++ beBytes 32 topic ++ beBytes 32 96 ++
    beBytes 32 data.length ++
    (data ++ List.replicate ((32 - data.length % 32) % 32) 0)

/-- Symbolic byte strings: raw bytes, symbolic Keccak-256 images, and
concatenation. -/
inductive SymBytes where
  | raw (bytes : List Nat)
  | symKeccak (t : SymBytes)
  | cat (a b : SymBytes)
  deriving DecidableEq, Repr

/-- The claim digest: `keccak256(abi.encode([address, uint256, bytes], …))`. -/
def claimDigest (identity topic : Nat) (data : List Nat) : SymBytes :=
  SymBytes.symKeccak (SymBytes.raw (abiEncodeClaim identity topic data))

/-- The EIP-191 personal-message prefix ethers prepends in `signMessage` for a
32-byte message: `"\x19Ethereum Signed Message:\n32"`. -/
def personalMessageHeader : List Nat :=
  25 :: ("Ethereum Signed Message:\n32".toList.map Char.toNat)

/-- The hash actually signed by `wallet.signMessage(digest)`:
`keccak256(prefix ++ digest)`. -/
def ethMessageHash (message : SymBytes) : SymBytes :=
  SymBytes.symKeccak (SymBytes.cat (SymBytes.raw personalMessageHeader) message)

/-- A symbolic ECDSA signature: the signing key together with the hash that
was signed (public-key recovery reads both back). -/
structure EthSignature where
  signerKey : String
  signedHash : SymBytes
  deriving DecidableEq, Repr

/-- Embeds `wallet.signMessage(message)` for wallet `key`. -/
def signMessageSym (key : String) (message : SymBytes) : EthSignature :=
  ⟨key, ethMessageHash message⟩

/-- Signature production for a claim, exactly as in `deployFullSuite`:
sign the personal-message hash of the claim digest. -/
def signClaim (key : String) (identity topic : Nat) (data : List Nat) : EthSignature :=
  signMessageSym key (claimDigest identity topic data)

/-- Public-key recovery: yields the signing key exactly when the signature
was produced over the personal-message hash of `message`. -/
def recoverSigner (message : SymBytes) (sig : EthSignature) : Option String :=
  if sig.signedHash = ethMessageHash message then some sig.signerKey else none

/-- The verifier side: recompute the digest from `(identity, topic, data)`
and check that the signature recovers to the issuer's registered signing
key. -/
def verifyClaimSig (issuerKey : String) (identity topic : Nat) (data : List Nat)
    (sig : EthSignature) : Bool :=
  decide (recoverSigner (claimDigest identity topic data) sig = some issuerKey)

/-! ## Receipt-log decoding (C5)

Embedding of the `TREXSuiteDeployed` extraction loop and
`normalizeAddressArg` from the single-property deployment script in
`scripts/deployIdentity.ts`. -/

/-- Decoded event arguments: named properties and positional entries. Decoded
address arguments surface as strings (the object/`toString` coercion branch of
`normalizeAddressArg` collapses in the embedding). -/
structure EventArgs where
  named : List (String × String)
  positional : List String
  deriving DecidableEq, Repr

/-- Embeds `args[key]` (named property access, `undefined` when absent). -/
def lookupNamed (args : EventArgs) (key : String) : Option String :=
  (args.named.find? fun e => e.1 = key).map (·.2)

/-- A receipt log after the `trexFactory.interface.parseLog` attempt:
`none` when parsing throws (a foreign log), otherwise the event name and
decoded arguments. -/
abbrev ParsedLog : Type := Option (String × EventArgs)

/-- Embeds `normalizeAddressArg`: resolve the candidate by name first and positional
index second; reject missing, empty, `"0x"` and zero-address values; return
the checksummed address (`ethers.utils.getAddress` may itself throw). -/
def normalizeAddressArg (args : EventArgs) (key : String) (index : Nat) :
    Except String String :=
  let candidate := (lookupNamed args key).orElse fun _ => args.positional[index]?
  match candidate with
  | none => Except.error ("Could not read " ++ key ++ " from TREXSuiteDeployed event.")
  | some value =>
    if value = "" || value = "0x" || value = addressZero then
      Except.error ("Could not read " ++ key ++ " from TREXSuiteDeployed event.")
    else
      getAddressE value

/-- The six component addresses recovered from a `TREXSuiteDeployed` event. -/
structure SuiteAddresses where
  token : String
  identityRegistry : String
  identityRegistryStorage : String
  trustedIssuersRegistry : String
  claimTopicsRegistry : String
  modularCompliance : String
  deriving DecidableEq, Repr

/-- The not-found error thrown when the loop ends without a decoded suite. -/
def suiteNotFoundError : String :=
  "Could not find TREXSuiteDeployed event in the transaction receipt."

/-- The six-field extraction performed inside the matching branch of the
loop; any field failure aborts the whole record construction. -/
def buildSuiteAddresses (args : EventArgs) : Except String SuiteAddresses := do
  let token ← normalizeAddressArg args "_token" 0
  let ir ← normalizeAddressArg args "_ir" 1
  let irs ← normalizeAddressArg args "_irs" 2
  let tir ← normalizeAddressArg args "_tir" 3
  let ctr ← normalizeAddressArg args "_ctr" 4
  let mc ← normalizeAddressArg args "_mc" 5
  pure ⟨token, ir, irs, tir, ctr, mc⟩

/-- The receipt-log loop: try-decode each log, skip logs that fail to parse
or carry a different event name, and also skip a matching log whose field
extraction throws (the `try`/`catch` swallows those errors too); if the loop
ends without a suite, fail with the not-found error. -/
def extractSuiteAddresses : List ParsedLog → Except String SuiteAddresses
  | [] => Except.error suiteNotFoundError
  | l :: rest =>
    match l with
    | some (name, args) =>
      if name = "TREXSuiteDeployed" then
        match buildSuiteAddresses args with
        | Except.ok s => Except.ok s
        | Except.error _ => extractSuiteAddresses rest
      else
        extractSuiteAddresses rest
    | none => extractSuiteAddresses rest

/-- A log that decodes as a `TREXSuiteDeployed` event. -/
def isTrexSuiteDeployedLog : ParsedLog → Bool
  | some (name, _) => name = "TREXSuiteDeployed"
  | none => false

/-! ## The single-property deployment orchestrator (C2, C6, C8, C9)

Embedding of `main` of the `deployPropertyToken` script in
`scripts/deployIdentity.ts`. Network reads are supplied as inputs in
`PropertyDeployEnv`; submitted network interactions come out as an ordered
`calls` trace. -/

/-- The classified result of the JavaScript `Number(...)` conversion used by
`parseDecimals`: an integer-valued number, a finite non-integer, or `NaN`
(non-numeric input; `Number.isInteger` is false for the latter two, and also
for infinities, which `nonInteger` covers). -/
inductive JSNumber where
  | int (n : Int)
  | nonInteger
  | nan
  deriving DecidableEq, Repr

/-- Embeds `parseDecimals(raw, fallback = 0)`: reject unless `Number(source)` is an
integer between 0 and 18, else return it. `raw` is the pre-converted
`Number` value of the environment string, absent when the variable is
unset (in which case the stringified fallback is converted). -/
def parseDecimals (raw : Option JSNumber) (fallback : Int) : Except String Int :=
  match raw.getD (JSNumber.int fallback) with
  | JSNumber.int n =>
    if n < 0 || 18 < n then
      Except.error "Token decimals must be an integer between 0 and 18"
    else
      Except.ok n
  | _ => Except.error "Token decimals must be an integer between 0 and 18"

/-- An out-of-range decimals value in the sense of the validation in
`parseDecimals`: not an integer (NaN, non-integer, infinite), negative, or
greater than 18. -/
def jsNumberOutOfRange : JSNumber → Bool
  | JSNumber.int n => n < 0 || 18 < n
  | _ => true

/-- Embeds `requireSalt`: trim, reject when empty after trimming. -/
def requireSalt (input : String) : Except String String :=
  let salt := jsTrim input
  if salt = "" then Except.error "Deployment salt cannot be empty"
  else Except.ok salt

/-- The hard-coded factory fallback `DEFAULT_FACTORY_PLACEHOLDER`. -/
def defaultFactoryPlaceholder : String := "0xB7f8BC63BbcaD18155201308C8f3540b07f84F5e"

/-- The token-details struct passed to `trexFactory.deployTREXSuite`. -/
structure TokenDetails where
  owner : String
  name : String
  symbol : String
  decimals : Int
  irs : String
  onchainId : String
  irAgents : List String
  tokenAgents : List String
  complianceModules : List String
  complianceSettings : List String
  deriving DecidableEq, Repr

/-- A network interaction submitted by the orchestrator, in order: the
`getCode` existence probe, the `getToken` idempotency query, and the
`deployTREXSuite` deployment transaction. -/
inductive NetCall where
  | getCode (address : String)
  | getToken (salt : String)
  | deployTREXSuite (salt : String) (details : TokenDetails)
  deriving DecidableEq, Repr

/-- Terminal outcome of a successful run: an informational early exit
reporting an existing suite, or a fresh deployment. -/
inductive MainOutcome where
  | abortedExisting (address : String)
  | deployed (suite : SuiteAddresses)
  deriving DecidableEq, Repr

instance {ε α : Type _} [DecidableEq ε] [DecidableEq α] : DecidableEq (Except ε α) :=
  fun x y =>
    match x, y with
    | Except.ok a, Except.ok b =>
      if h : a = b then isTrue (by rw [h])
      else isFalse (by intro hc; injection hc; contradiction)
    | Except.error a, Except.error b =>
      if h : a = b then isTrue (by rw [h])
      else isFalse (by intro hc; injection hc; contradiction)
    | Except.ok _, Except.error _ => isFalse (by intro hc; injection hc)
    | Except.error _, Except.ok _ => isFalse (by intro hc; injection hc)

/-- One orchestrator run: the submitted network calls in order, the warnings
printed, and the result (`Except.error` = the script threw). -/
structure MainRun where
  calls : List NetCall
  warnings : List String
  result : Except String MainOutcome
  deriving DecidableEq, Repr

/-- Everything the orchestrator reads from the environment and the network. -/
structure PropertyDeployEnv where
  /-- Env var `process.env.TREX_FACTORY_ADDRESS` -/
  trexFactoryAddress : Option String
  /-- Env var `process.env.PROPERTY_TOKEN_NAME` -/
  propertyTokenName : Option String
  /-- Env var `process.env.PROPERTY_TOKEN_SYMBOL` -/
  propertyTokenSymbol : Option String
  /-- Value `Number(process.env.PROPERTY_TOKEN_DECIMALS)`, classified -/
  propertyTokenDecimals : Option JSNumber
  /-- Env var `process.env.PROPERTY_OWNER_ADDRESS` -/
  propertyOwnerAddress : Option String
  /-- Env var `process.env.PROPERTY_TOKEN_SALT` -/
  propertyTokenSalt : Option String
  /-- Address `deployer.address` -/
  deployerAddress : String
  /-- Address `secondarySigner?.address` -/
  secondarySignerAddress : Option String
  /-- Name `network.name` -/
  networkName : String
  /-- result of `provider.getCode(factoryAddress)` -/
  factoryCode : String
  /-- result of `trexFactory.getToken(deploymentSalt)` (`error` = reverted) -/
  getTokenResult : Except String String
  /-- the receipt logs of the deployment transaction, after `parseLog` -/
  receiptLogs : List ParsedLog

/-- Embeds `process.env.PROPERTY_TOKEN_NAME?.trim() || "Luxury Villa A4"`. -/
def resolvePropertyTokenName (env : PropertyDeployEnv) : String :=
  match env.propertyTokenName with
  | some s => if jsTrim s = "" then "Luxury Villa A4" else jsTrim s
  | none => "Luxury Villa A4"

/-- Embeds `process.env.PROPERTY_TOKEN_SYMBOL?.trim() || "LVA1"`. -/
def resolvePropertyTokenSymbol (env : PropertyDeployEnv) : String :=
  match env.propertyTokenSymbol with
  | some s => if jsTrim s = "" then "LVA1" else jsTrim s
  | none => "LVA1"

/-- Embeds `Array.from(new Set([deployer.address, propertyOwnerAddress]))`. -/
def uniquePropertyAgents (deployerAddress ownerAddress : String) : List String :=
  if deployerAddress = ownerAddress then [deployerAddress]
  else [deployerAddress, ownerAddress]

/-- The `tokenDetails` literal built by the orchestrator. -/
def propertyTokenDetails (env : PropertyDeployEnv) (ownerAddress : String)
    (decimals : Int) : TokenDetails :=
  { owner := ownerAddress
    name := resolvePropertyTokenName env
    symbol := resolvePropertyTokenSymbol env
    decimals := decimals
    irs := addressZero
    onchainId := addressZero
    irAgents := uniquePropertyAgents env.deployerAddress ownerAddress
    tokenAgents := uniquePropertyAgents env.deployerAddress ownerAddress
    complianceModules := []
    complianceSettings := [] }

/-- The `ensureContractDeployed` failure message (with the per-network
hint). -/
def ensureContractDeployedError (label address networkName : String) : String :=
  let hint :=
    if networkName = "hardhat" then
      "Start `npx hardhat node` in another terminal and rerun with `--network localhost`, or deploy the factory within this script before using it."
    else
      "Make sure the contract is deployed on the \"" ++ networkName ++ "\" network."
  label ++ " (" ++ address ++ ") has no contract bytecode on network \"" ++
    networkName ++ "\". " ++ hint

/-- The warning printed when the `getToken` idempotency probe reverts. -/
def skipDuplicateCheckWarning (message : String) : String :=
  "⚠️  Skipping duplicate deployment check because factory.getToken reverted: " ++
    message ++ ". Continuing with deployment."

/-- Embeds `main` of the `deployPropertyToken` script, step for step: validate the
factory address, resolve name/symbol/decimals, validate the owner address,
trim and validate the salt, probe the factory bytecode, run the `getToken`
idempotency check (a reverting probe downgrades to a warning and the zero
address), abort early when a non-zero suite already exists, otherwise submit
`deployTREXSuite` and decode the receipt. -/
def deployPropertyTokenMain (env : PropertyDeployEnv) : MainRun :=
  match requireAddress "TREX factory address"
      (env.trexFactoryAddress.getD defaultFactoryPlaceholder) with
  | Except.error e => ⟨[], [], Except.error e⟩
  | Except.ok factoryAddress =>
    match parseDecimals env.propertyTokenDecimals 0 with
    | Except.error e => ⟨[], [], Except.error e⟩
    | Except.ok propertyTokenDecimals =>
      match requireAddress "Property owner address"
          (env.propertyOwnerAddress.getD
            (env.secondarySignerAddress.getD env.deployerAddress)) with
      | Except.error e => ⟨[], [], Except.error e⟩
      | Except.ok propertyOwnerAddress =>
        match requireSalt (env.propertyTokenSalt.getD (resolvePropertyTokenName env)) with
        | Except.error e => ⟨[], [], Except.error e⟩
        | Except.ok deploymentSalt =>
          if env.factoryCode = "0x" then
            ⟨[NetCall.getCode factoryAddress], [],
              Except.error
                (ensureContractDeployedError "TREX factory address" factoryAddress
                  env.networkName)⟩
          else
            let existingWarned :=
              match env.getTokenResult with
              | Except.ok a => (a, [])
              | Except.error m => (addressZero, [skipDuplicateCheckWarning m])
            let existingDeployment := existingWarned.1
            let warnings := existingWarned.2
            if existingDeployment ≠ "" ∧ existingDeployment ≠ addressZero then
              ⟨[NetCall.getCode factoryAddress, NetCall.getToken deploymentSalt],
                warnings, Except.ok (MainOutcome.abortedExisting existingDeployment)⟩
            else
              let tokenDetails := propertyTokenDetails env propertyOwnerAddress
                propertyTokenDecimals
              let calls := [NetCall.getCode factoryAddress,
                NetCall.getToken deploymentSalt,
                NetCall.deployTREXSuite deploymentSalt tokenDetails]
              match extractSuiteAddresses env.receiptLogs with
              | Except.ok suite =>
                ⟨calls, warnings, Except.ok (MainOutcome.deployed suite)⟩
              | Except.error e => ⟨calls, warnings, Except.error e⟩

/-! ## The identity-registration script (C10)

Embedding of `main` of `scripts/registerIdentity.ts`. -/

/-- The environment read by the registration script. -/
structure RegisterIdentityEnv where
  /-- Env var `process.env.IDENTITY_REGISTRY_ADDRESS` -/
  identityRegistryAddress : Option String
  /-- Env var `process.env.AGENT_PRIVATE_KEY` -/
  agentPrivateKey : Option String
  /-- Env var `process.env.PRIVATE_KEY` -/
  privateKey : Option String
  /-- Env var `process.env.USER_WALLET` -/
  userWallet : Option String
  /-- Env var `process.env.USER_IDENTITY_ADDRESS` -/
  userIdentityAddress : Option String

/-- The `batchRegisterIdentity` transaction the script submits. -/
structure BatchRegisterCall where
  registry : String
  wallets : List String
  identities : List String
  countries : List Nat
  deriving DecidableEq, Repr

/-- The instruction message thrown when `USER_WALLET` is absent. -/
def userWalletRequiredMsg : String :=
  "User wallet address is required. Provide it as an environment variable:\n" ++
  "  USER_WALLET=<address> npx hardhat run scripts/registerIdentity.ts --network <network>\n" ++
  "  or add USER_WALLET=<address> to your .env file"

/-- Embeds `parseUserWallet`: a truthy `USER_WALLET` is validated and checksummed;
otherwise the script throws with usage instructions. -/
def parseUserWallet (userWallet : Option String) : Except String String :=
  match userWallet with
  | some w =>
    if w ≠ "" then requireAddress "User wallet address (from USER_WALLET env)" w
    else Except.error userWalletRequiredMsg
  | none => Except.error userWalletRequiredMsg

/-- Embeds `main` of `registerIdentity.ts`: resolve the registry address (with its
hard-coded fallback), require a signing key, validate the user wallet and
identity address, and submit `batchRegisterIdentity([wallet], [identity],
[42])`. The country code `42` is a literal independent of the environment. -/
def registerIdentityMain (env : RegisterIdentityEnv) : Except String BatchRegisterCall :=
  let registryAddress :=
    env.identityRegistryAddress.getD "0x51991f45EA1475C4C0eD37a9f615041a3b0bCc6C"
  let agentKey := env.agentPrivateKey.orElse fun _ => env.privateKey
  if !jsTruthy agentKey then
    Except.error "Missing AGENT_PRIVATE_KEY (preferred) or PRIVATE_KEY in environment."
  else
    match parseUserWallet env.userWallet with
    | Except.error e => Except.error e
    | Except.ok userWallet =>
      if !jsTruthy env.userIdentityAddress then
        Except.error
          "Missing USER_IDENTITY_ADDRESS in environment. Provide the new Identity Contract Address from the first script."
      else
        let userIdentity := env.userIdentityAddress.getD ""
        if !isAddress userIdentity then
          Except.error "Please paste the new Identity Contract Address from the first script."
        else
          Except.ok ⟨registryAddress, [userWallet], [userIdentity], [42]⟩

/-! ## Concrete test fixtures (used by the witness theorems) -/

/-- A concrete environment for exercising the orchestrator: valid factory
and owner addresses, a live factory, defaults everywhere else. The
`getTokenResult` and `receiptLogs` fields are overridden per scenario. -/
def fixtureEnv : PropertyDeployEnv :=
  { trexFactoryAddress := some "0x7777777777777777777777777777777777777777"
    propertyTokenName := none
    propertyTokenSymbol := none
    propertyTokenDecimals := none
    propertyOwnerAddress := some "0x8888888888888888888888888888888888888888"
    propertyTokenSalt := some "Villa 1"
    deployerAddress := "0x9999999999999999999999999999999999999999"
    secondarySignerAddress := none
    networkName := "localhost"
    factoryCode := "0x6080"
    getTokenResult := Except.ok addressZero
    receiptLogs := [] }

/-- Variant of `fixtureEnv` with a factory that already reports a suite for the salt. -/
def fixtureEnvExisting : PropertyDeployEnv :=
  { fixtureEnv with
    getTokenResult := Except.ok "0x1111111111111111111111111111111111111111" }

/-- Variant of `fixtureEnv` with a reverting `getToken` probe. -/
def fixtureEnvReverting : PropertyDeployEnv :=
  { fixtureEnv with getTokenResult := Except.error "execution reverted" }

/-- Variant of `fixtureEnv` with a non-numeric decimals setting. -/
def fixtureEnvBadDecimals : PropertyDeployEnv :=
  { fixtureEnv with propertyTokenDecimals := some JSNumber.nan }

/-- Variant of `fixtureEnv` with decimals set to 2. -/
def fixtureEnvDecimals2 : PropertyDeployEnv :=
  { fixtureEnv with propertyTokenDecimals := some (JSNumber.int 2) }

/-- Variant of `fixtureEnv` with a whitespace-only salt. -/
def fixtureEnvBlankSalt : PropertyDeployEnv :=
  { fixtureEnv with propertyTokenSalt := some "   " }

/-- A concrete environment for the registration script. -/
def fixtureRegisterEnv : RegisterIdentityEnv :=
  { identityRegistryAddress := none
    agentPrivateKey := some "0xagentkey"
    privateKey := none
    userWallet := some "0x1111111111111111111111111111111111111111"
    userIdentityAddress := some "0x2222222222222222222222222222222222222222" }

/-! ## Helper lemmas -/

theorem beBytes_length (w n : Nat) : (beBytes w n).length = w := by
  induction w generalizing n with
  | zero => rfl
  | succ w ih => simp [beBytes, ih]

theorem beBytes_inj {w m n : Nat} (hm : m < 256 ^ w) (hn : n < 256 ^ w)
    (h : beBytes w m = beBytes w n) : m = n := by
  induction w generalizing m n with
  | zero =>
    simp only [pow_zero, Nat.lt_one_iff] at hm hn
    omega
  | succ w ih =>
    simp only [beBytes] at h
    obtain ⟨h1, h2⟩ := List.append_inj h (by simp [beBytes_length])
    have hm' : m / 256 < 256 ^ w := by
      rw [Nat.div_lt_iff_lt_mul (by norm_num)]
      calc m < 256 ^ (w + 1) := hm
        _ = 256 ^ w * 256 := by rw [pow_succ]
    have hn' : n / 256 < 256 ^ w := by
      rw [Nat.div_lt_iff_lt_mul (by norm_num)]
      calc n < 256 ^ (w + 1) := hn
        _ = 256 ^ w * 256 := by rw [pow_succ]
    have hdiv := ih hm' hn' h1
    have hmod : m % 256 = n % 256 := by simpa using h2
    have e1 := Nat.div_add_mod m 256
    have e2 := Nat.div_add_mod n 256
    omega

theorem abiEncodeClaim_inj {i t i' t' : Nat} {d d' : List Nat}
    (hi : i < 2 ^ 160) (ht : t < 2 ^ 256) (hi' : i' < 2 ^ 160) (ht' : t' < 2 ^ 256)
    (hd : d.length < 2 ^ 256) (hd' : d'.length < 2 ^ 256)
    (h : abiEncodeClaim i t d = abiEncodeClaim i' t' d') : i = i' ∧ t = t' ∧ d = d' := by
  have hpow : (2 : Nat) ^ 256 = 256 ^ 32 := by norm_num
  have h160 : (2 : Nat) ^ 160 ≤ 256 ^ 32 := by norm_num
  simp only [abiEncodeClaim, List.append_assoc] at h
  obtain ⟨hA, h⟩ := List.append_inj h (by simp [beBytes_length])
  obtain ⟨hB, h⟩ := List.append_inj h (by simp [beBytes_length])
  obtain ⟨-, h⟩ := List.append_inj h (by simp [beBytes_length])
  obtain ⟨hC, h⟩ := List.append_inj h (by simp [beBytes_length])
  have hieq : i = i' :=
    beBytes_inj (lt_of_lt_of_le hi h160) (lt_of_lt_of_le hi' h160) hA
  have hteq : t = t' := beBytes_inj (hpow ▸ ht) (hpow ▸ ht') hB
  have hlen : d.length = d'.length :=
    beBytes_inj (hpow ▸ hd) (hpow ▸ hd') hC
  obtain ⟨hdeq, -⟩ := List.append_inj h hlen
  exact ⟨hieq, hteq, hdeq⟩

theorem extractSuiteAddresses_skip (pre rest : List ParsedLog)
    (hpre : ∀ l ∈ pre, isTrexSuiteDeployedLog l = false) :
    extractSuiteAddresses (pre ++ rest) = extractSuiteAddresses rest := by
  induction pre with
  | nil => rfl
  | cons hd tl ih =>
    have hh := hpre hd (List.mem_cons_self hd tl)
    have htl : ∀ l ∈ tl, isTrexSuiteDeployedLog l = false :=
      fun l hl => hpre l (List.mem_cons_of_mem hd hl)
    cases hd with
    | none => simpa [extractSuiteAddresses] using ih htl
    | some p =>
      obtain ⟨name, args⟩ := p
      have hname : ¬(name = "TREXSuiteDeployed") := by
        simpa [isTrexSuiteDeployedLog] using hh
      simpa [extractSuiteAddresses, hname] using ih htl

theorem extractSuiteAddresses_not_found (ls : List ParsedLog)
    (h : ∀ l ∈ ls, isTrexSuiteDeployedLog l = false) :
    extractSuiteAddresses ls = Except.error suiteNotFoundError := by
  have := extractSuiteAddresses_skip ls [] h
  simpa [extractSuiteAddresses] using this

theorem requireSalt_ok {input s : String} (h : requireSalt input = Except.ok s) :
    s = jsTrim input := by
  unfold requireSalt at h
  by_cases he : jsTrim input = ""
  · simp [he] at h
  · simp only [he, if_neg] at h
    simp at h
    exact h.symm

/-- Exhaustive description of the network-call traces `deployPropertyTokenMain`
can produce: nothing (a validation failure), the bytecode probe alone, probe
plus idempotency query (the duplicate-abort path), or the full trace ending
in the deployment transaction — the latter only when the idempotency query
did not report a non-zero address. -/
theorem deployPropertyTokenMain_shape (env : PropertyDeployEnv) :
    (deployPropertyTokenMain env).calls = [] ∨
    (∃ fa salt owner dec,
      requireAddress "TREX factory address"
          (env.trexFactoryAddress.getD defaultFactoryPlaceholder) = Except.ok fa ∧
      requireSalt (env.propertyTokenSalt.getD (resolvePropertyTokenName env)) =
          Except.ok salt ∧
      requireAddress "Property owner address"
          (env.propertyOwnerAddress.getD
            (env.secondarySignerAddress.getD env.deployerAddress)) = Except.ok owner ∧
      parseDecimals env.propertyTokenDecimals 0 = Except.ok dec ∧
      ((deployPropertyTokenMain env).calls = [NetCall.getCode fa] ∨
       (deployPropertyTokenMain env).calls =
          [NetCall.getCode fa, NetCall.getToken salt] ∨
       ((deployPropertyTokenMain env).calls =
          [NetCall.getCode fa, NetCall.getToken salt,
           NetCall.deployTREXSuite salt (propertyTokenDetails env owner dec)] ∧
        (∀ a, env.getTokenResult = Except.ok a → a = "" ∨ a = addressZero)))) := by
  cases hfa : requireAddress "TREX factory address"
      (env.trexFactoryAddress.getD defaultFactoryPlaceholder) with
  | error e => left; simp only [deployPropertyTokenMain, hfa]
  | ok fa =>
    cases hdec : parseDecimals env.propertyTokenDecimals 0 with
    | error e => left; simp only [deployPropertyTokenMain, hfa, hdec]
    | ok dec =>
      cases ho : requireAddress "Property owner address"
          (env.propertyOwnerAddress.getD
            (env.secondarySignerAddress.getD env.deployerAddress)) with
      | error e => left; simp only [deployPropertyTokenMain, hfa, hdec, ho]
      | ok owner =>
        cases hsalt : requireSalt
            (env.propertyTokenSalt.getD (resolvePropertyTokenName env)) with
        | error e => left; simp only [deployPropertyTokenMain, hfa, hdec, ho, hsalt]
        | ok salt =>
          right
          refine ⟨fa, salt, owner, dec, rfl, rfl, rfl, rfl, ?_⟩
          by_cases hc : env.factoryCode = "0x"
          · left
            simp only [deployPropertyTokenMain, hfa, hdec, ho, hsalt, if_pos hc]
          · cases hg : env.getTokenResult with
            | ok a =>
              by_cases hz : a ≠ "" ∧ a ≠ addressZero
              · right; left
                simp only [deployPropertyTokenMain, hfa, hdec, ho, hsalt, if_neg hc, hg]
                rw [if_pos hz]
              · right; right
                constructor
                · simp only [deployPropertyTokenMain, hfa, hdec, ho, hsalt, if_neg hc, hg]
                  rw [if_neg hz]
                  cases hext : extractSuiteAddresses env.receiptLogs <;> rfl
                · intro b hgb
                  injection hgb with hba
                  push_neg at hz
                  subst hba
                  by_cases hb : a = ""
                  · left; exact hb
                  · right; exact hz hb
            | error m =>
              right; right
              constructor
              · simp only [deployPropertyTokenMain, hfa, hdec, ho, hsalt, if_neg hc, hg]
                rw [if_neg (by simp [addressZero])]
                cases hext : extractSuiteAddresses env.receiptLogs <;> rfl
              · intro b hgb
                exact Except.noConfusion hgb

theorem resolveRoleSigner_warns (envKeyValue : Option String)
    (availableSigner : Option SignerV) (deployer : SignerV) :
    (resolveRoleSigner envKeyValue availableSigner deployer).2 =
      (!jsTruthy envKeyValue && availableSigner.isNone) := by
  unfold resolveRoleSigner
  cases availableSigner <;> by_cases h : jsTruthy envKeyValue <;> simp [h]

/-! ## Claim theorems -/

/-- C1: In both deployment runs, the token's `unpause` call is never
performed before all of the suite-wiring steps (storage binding, agent
grants on token and identity registry, claim-topic registration,
trusted-issuer registration): every wiring step precedes any `unpause`, and
`unpause` is only ever the final step of the sequence. In `deployFullSuite`
it is literally the last transaction (after all five wiring categories have
been submitted); `deployTREXSuiteInfrastructure` never unpauses at all. -/
theorem unpause_never_before_wiring_and_only_final :
    unpauseOrderingOK deployFullSuiteActions = true ∧
    unpauseOrderingOK deployTREXSuiteInfrastructureActions = true ∧
    deployFullSuiteActions.getLast? = some SuiteAction.unpause ∧
    SuiteAction.bindIdentityRegistry ∈ deployFullSuiteActions ∧
    SuiteAction.tokenAddAgent "tokenAgent" ∈ deployFullSuiteActions ∧
    SuiteAction.irAddAgent "tokenAgent" ∈ deployFullSuiteActions ∧
    SuiteAction.addClaimTopic ∈ deployFullSuiteActions ∧
    SuiteAction.addTrustedIssuer ∈ deployFullSuiteActions ∧
    SuiteAction.unpause ∉ deployTREXSuiteInfrastructureActions := by
  decide

/-- C3: The claim digest is `keccak256` of the ABI-encoded tuple
`(address identity, uint256 topic, bytes data)` in that order; the signature
is produced by signing the digest re-hashed under the personal-message
prefix with the issuer's signing key; verification of that signature against
the recomputed digest succeeds, and changing any one of identity, topic or
data invalidates the signature. -/
theorem claim_signature_roundtrip (key : String) (i t i' t' : Nat) (d d' : List Nat)
    (hi : i < 2 ^ 160) (ht : t < 2 ^ 256) (hi' : i' < 2 ^ 160) (ht' : t' < 2 ^ 256)
    (hd : d.length < 2 ^ 256) (hd' : d'.length < 2 ^ 256) :
    claimDigest i t d = SymBytes.symKeccak (SymBytes.raw (abiEncodeClaim i t d)) ∧
    signClaim key i t d = signMessageSym key (claimDigest i t d) ∧
    verifyClaimSig key i t d (signClaim key i t d) = true ∧
    (¬(i = i' ∧ t = t' ∧ d = d') →
      verifyClaimSig key i t d (signClaim key i' t' d') = false) := by
  refine ⟨rfl, rfl, ?_, ?_⟩
  · simp [verifyClaimSig, signClaim, signMessageSym, recoverSigner]
  · intro hne
    have hdig : ethMessageHash (claimDigest i' t' d') ≠ ethMessageHash (claimDigest i t d) := by
      intro hq
      apply hne
      simp only [ethMessageHash, claimDigest] at hq
      injection hq with hq1
      injection hq1 with hq2 hq3
      injection hq3 with hq4
      injection hq4 with hq5
      obtain ⟨a, b, c⟩ := abiEncodeClaim_inj hi' ht' hi ht hd' hd hq5
      exact ⟨a.symm, b.symm, c.symm⟩
    simp [verifyClaimSig, signClaim, signMessageSym, recoverSigner, hdig]

/-- Witness for C3 at a concrete well-formed triple: the round trip verifies
and a tampered data field is rejected. -/
theorem claim_signature_roundtrip_witness :
    verifyClaimSig "issuerKey" 1 2 [3] (signClaim "issuerKey" 1 2 [3]) = true ∧
    verifyClaimSig "issuerKey" 1 2 [3] (signClaim "issuerKey" 1 2 [4]) = false := by
  refine ⟨?_, ?_⟩
  · exact (claim_signature_roundtrip "issuerKey" 1 2 1 2 [3] [4] (by norm_num)
      (by norm_num) (by norm_num) (by norm_num) (by norm_num) (by norm_num)).2.2.1
  · exact (claim_signature_roundtrip "issuerKey" 1 2 1 2 [4] [3]
      (by norm_num) (by norm_num) (by norm_num) (by norm_num) (by norm_num)
      (by norm_num)).2.2.2 (by simp)

/-- C4: Role resolution precedence: a non-empty environment private key for
the role always wins and yields the wallet built from that key; otherwise a
pooled signer at the role's index is used; otherwise the deployer is used
and the fallback warning is emitted exactly once per role per run. -/
theorem resolveRoleSigner_precedence (envKeyValue : Option String) (k : String)
    (availableSigner : Option SignerV) (deployer : SignerV)
    (env : RoleKey → Option String) (pool : List SignerV) (r : RoleKey) :
    (envKeyValue = some k → k ≠ "" →
      resolveRoleSigner envKeyValue availableSigner deployer =
        (SignerV.walletSigner k, false)) ∧
    (jsTruthy envKeyValue = false → ∀ s, availableSigner = some s →
      resolveRoleSigner envKeyValue availableSigner deployer = (s, false)) ∧
    (jsTruthy envKeyValue = false → availableSigner = none →
      resolveRoleSigner envKeyValue availableSigner deployer = (deployer, true)) ∧
    warnCount (resolveAllRoleSigners env pool deployer) r =
      (if jsTruthy (env r) = false ∧ pool[roleIndex r]? = none then 1 else 0) := by
  refine ⟨?_, ?_, ?_, ?_⟩
  · intro he hk
    subst he
    simp [resolveRoleSigner, jsTruthy, hk]
  · intro he s hs
    subst hs
    simp [resolveRoleSigner, he]
  · intro he hs
    subst hs
    simp [resolveRoleSigner, he]
  · have base : ∀ (ek : Option String) (av : Option SignerV),
        (resolveRoleSigner ek av deployer).2 = (!jsTruthy ek && av.isNone) :=
      fun ek av => resolveRoleSigner_warns ek av deployer
    cases r
    case tokenIssuer =>
      by_cases h : jsTruthy (env RoleKey.tokenIssuer) <;> cases hp : pool[1]? <;>
        simp [warnCount, resolveAllRoleSigners, roleIndex, List.filter_cons, base, h, hp]
    case tokenAgent =>
      by_cases h : jsTruthy (env RoleKey.tokenAgent) <;> cases hp : pool[2]? <;>
        simp [warnCount, resolveAllRoleSigners, roleIndex, List.filter_cons, base, h, hp]
    case tokenAdmin =>
      by_cases h : jsTruthy (env RoleKey.tokenAdmin) <;> cases hp : pool[3]? <;>
        simp [warnCount, resolveAllRoleSigners, roleIndex, List.filter_cons, base, h, hp]
    case claimIssuer =>
      by_cases h : jsTruthy (env RoleKey.claimIssuer) <;> cases hp : pool[4]? <;>
        simp [warnCount, resolveAllRoleSigners, roleIndex, List.filter_cons, base, h, hp]

/-- C5: For a receipt whose logs contain exactly one decodable
`TREXSuiteDeployed` event among arbitrary unrelated logs, extraction returns
exactly the six suite addresses, each resolved by field name first and
positional index second and passed through checksum normalization after the
empty/`"0x"`/zero-address rejection; if any required field fails, or no
matching event exists, extraction fails with the not-found error and never
returns a partially populated result. -/
theorem trexSuiteDeployed_extraction (pre post : List ParsedLog) (args : EventArgs)
    (hpre : ∀ l ∈ pre, isTrexSuiteDeployedLog l = false)
    (hpost : ∀ l ∈ post, isTrexSuiteDeployedLog l = false) :
    (∀ s, buildSuiteAddresses args = Except.ok s →
      extractSuiteAddresses (pre ++ some ("TREXSuiteDeployed", args) :: post) =
        Except.ok s) ∧
    (∀ e, buildSuiteAddresses args = Except.error e →
      extractSuiteAddresses (pre ++ some ("TREXSuiteDeployed", args) :: post) =
        Except.error suiteNotFoundError) ∧
    extractSuiteAddresses (pre ++ post) = Except.error suiteNotFoundError ∧
    (∀ key index a, normalizeAddressArg args key index = Except.ok a →
      ∃ v, ((lookupNamed args key).orElse fun _ => args.positional[index]?) = some v ∧
        v ≠ "" ∧ v ≠ "0x" ∧ v ≠ addressZero ∧ getAddressE v = Except.ok a) := by
  refine ⟨?_, ?_, ?_, ?_⟩
  · intro s hs
    rw [extractSuiteAddresses_skip pre _ hpre]
    simp [extractSuiteAddresses, hs]
  · intro e he
    rw [extractSuiteAddresses_skip pre _ hpre]
    simp [extractSuiteAddresses, he, extractSuiteAddresses_not_found post hpost]
  · have : ∀ l ∈ pre ++ post, isTrexSuiteDeployedLog l = false := by
      intro l hl
      rcases List.mem_append.mp hl with h | h
      · exact hpre l h
      · exact hpost l h
    exact extractSuiteAddresses_not_found _ this
  · intro key index a ha
    unfold normalizeAddressArg at ha
    cases hc : (lookupNamed args key).orElse fun _ => args.positional[index]? with
    | none => rw [hc] at ha; exact absurd ha (by simp)
    | some v =>
      rw [hc] at ha
      by_cases hbad : v = "" ∨ v = "0x" ∨ v = addressZero
      · exfalso
        rcases hbad with h | h | h <;> simp [h] at ha
      · push_neg at hbad
        obtain ⟨hv1, hv2, hv3⟩ := hbad
        refine ⟨v, rfl, hv1, hv2, hv3, ?_⟩
        simpa [hv1, hv2, hv3] using ha

/-- Witness for C5: a receipt with one `TREXSuiteDeployed` event surrounded
by an undecodable log and a foreign event decodes to the six checksummed
addresses. -/
theorem trexSuiteDeployed_extraction_witness :
    extractSuiteAddresses
        [none,
         some ("TREXSuiteDeployed",
           ⟨[("_token", "0x1111111111111111111111111111111111111111"),
             ("_ir", "0x2222222222222222222222222222222222222222"),
             ("_irs", "0x3333333333333333333333333333333333333333"),
             ("_tir", "0x4444444444444444444444444444444444444444"),
             ("_ctr", "0x5555555555555555555555555555555555555555"),
             ("_mc", "0x6666666666666666666666666666666666666666")], []⟩),
         some ("Transfer", ⟨[], []⟩)] =
      Except.ok
        ⟨"0x1111111111111111111111111111111111111111",
         "0x2222222222222222222222222222222222222222",
         "0x3333333333333333333333333333333333333333",
         "0x4444444444444444444444444444444444444444",
         "0x5555555555555555555555555555555555555555",
         "0x6666666666666666666666666666666666666666"⟩ :=
  (trexSuiteDeployed_extraction [none] [some ("Transfer", ⟨[], []⟩)]
      ⟨[("_token", "0x1111111111111111111111111111111111111111"),
        ("_ir", "0x2222222222222222222222222222222222222222"),
        ("_irs", "0x3333333333333333333333333333333333333333"),
        ("_tir", "0x4444444444444444444444444444444444444444"),
        ("_ctr", "0x5555555555555555555555555555555555555555"),
        ("_mc", "0x6666666666666666666666666666666666666666")], []⟩
      (by decide) (by decide)).1
    ⟨"0x1111111111111111111111111111111111111111",
     "0x2222222222222222222222222222222222222222",
     "0x3333333333333333333333333333333333333333",
     "0x4444444444444444444444444444444444444444",
     "0x5555555555555555555555555555555555555555",
     "0x6666666666666666666666666666666666666666"⟩ (by decide)

/-- C2: When the factory already reports a non-zero token address for the
salt, the run submits no `deployTREXSuite` transaction, returns normally
(an informational early exit, not an error) reporting the existing address;
and in general a deployment transaction is only ever submitted when the
factory reported the zero address (or an empty value) or the query failed. -/
theorem duplicate_salt_aborts (env : PropertyDeployEnv)
    (fa owner salt existing : String) (dec : Int)
    (hf : requireAddress "TREX factory address"
      (env.trexFactoryAddress.getD defaultFactoryPlaceholder) = Except.ok fa)
    (hdec : parseDecimals env.propertyTokenDecimals 0 = Except.ok dec)
    (ho : requireAddress "Property owner address"
      (env.propertyOwnerAddress.getD
        (env.secondarySignerAddress.getD env.deployerAddress)) = Except.ok owner)
    (hs : requireSalt (env.propertyTokenSalt.getD (resolvePropertyTokenName env)) =
      Except.ok salt)
    (hc : env.factoryCode ≠ "0x")
    (hg : env.getTokenResult = Except.ok existing)
    (h1 : existing ≠ "") (h2 : existing ≠ addressZero) :
    deployPropertyTokenMain env =
      ⟨[NetCall.getCode fa, NetCall.getToken salt], [],
        Except.ok (MainOutcome.abortedExisting existing)⟩ ∧
    (∀ env' : PropertyDeployEnv, ∀ s det,
      NetCall.deployTREXSuite s det ∈ (deployPropertyTokenMain env').calls →
      ∀ a, env'.getTokenResult = Except.ok a → a = "" ∨ a = addressZero) := by
  constructor
  · simp only [deployPropertyTokenMain, hf, hdec, ho, hs, if_neg hc, hg]
    rw [if_pos ⟨h1, h2⟩]
  · intro env' s det hmem a hga
    rcases deployPropertyTokenMain_shape env' with hnil |
      ⟨fa', salt', owner', dec', -, -, -, -, hshape⟩
    · rw [hnil] at hmem; simp at hmem
    · rcases hshape with hcs | hcs | ⟨hcs, hcond⟩
      · rw [hcs] at hmem; simp at hmem
      · rw [hcs] at hmem; simp at hmem
      · exact hcond a hga

/-- Witness for C2: a concrete run against a factory that reports an
existing suite for the salt aborts with the existing address and two network
reads only. -/
theorem duplicate_salt_aborts_witness :
    deployPropertyTokenMain fixtureEnvExisting =
      ⟨[NetCall.getCode "0x7777777777777777777777777777777777777777",
        NetCall.getToken "Villa 1"], [],
        Except.ok (MainOutcome.abortedExisting
          "0x1111111111111111111111111111111111111111")⟩ :=
  (duplicate_salt_aborts fixtureEnvExisting
      "0x7777777777777777777777777777777777777777"
      "0x8888888888888888888888888888888888888888"
      "Villa 1" "0x1111111111111111111111111111111111111111" 0
      (by decide) (by decide) (by decide) (by decide) (by decide) rfl
      (by decide) (by decide)).1

/-- C6: When the `getToken` idempotency query itself fails, the run logs the
skip warning, treats the salt as having no existing deployment, and proceeds
to submit the deployment transaction instead of aborting. -/
theorem getToken_failure_continues (env : PropertyDeployEnv)
    (fa owner salt message : String) (dec : Int)
    (hf : requireAddress "TREX factory address"
      (env.trexFactoryAddress.getD defaultFactoryPlaceholder) = Except.ok fa)
    (hdec : parseDecimals env.propertyTokenDecimals 0 = Except.ok dec)
    (ho : requireAddress "Property owner address"
      (env.propertyOwnerAddress.getD
        (env.secondarySignerAddress.getD env.deployerAddress)) = Except.ok owner)
    (hs : requireSalt (env.propertyTokenSalt.getD (resolvePropertyTokenName env)) =
      Except.ok salt)
    (hc : env.factoryCode ≠ "0x")
    (hg : env.getTokenResult = Except.error message) :
    (deployPropertyTokenMain env).warnings = [skipDuplicateCheckWarning message] ∧
    (deployPropertyTokenMain env).calls =
      [NetCall.getCode fa, NetCall.getToken salt,
       NetCall.deployTREXSuite salt (propertyTokenDetails env owner dec)] := by
  have hshape : deployPropertyTokenMain env =
      (match extractSuiteAddresses env.receiptLogs with
        | Except.ok suite =>
          ⟨[NetCall.getCode fa, NetCall.getToken salt,
             NetCall.deployTREXSuite salt (propertyTokenDetails env owner dec)],
            [skipDuplicateCheckWarning message],
            Except.ok (MainOutcome.deployed suite)⟩
        | Except.error e =>
          ⟨[NetCall.getCode fa, NetCall.getToken salt,
             NetCall.deployTREXSuite salt (propertyTokenDetails env owner dec)],
            [skipDuplicateCheckWarning message], Except.error e⟩ : MainRun) := by
    simp only [deployPropertyTokenMain, hf, hdec, ho, hs, if_neg hc, hg]
    rw [if_neg (by simp [addressZero])]
  rw [hshape]
  cases extractSuiteAddresses env.receiptLogs <;> simp

/-- Witness for C6: a concrete run whose `getToken` probe reverts warns and
still submits the deployment transaction. -/
theorem getToken_failure_continues_witness :
    (deployPropertyTokenMain fixtureEnvReverting).warnings =
      [skipDuplicateCheckWarning "execution reverted"] ∧
    (deployPropertyTokenMain fixtureEnvReverting).calls =
      [NetCall.getCode "0x7777777777777777777777777777777777777777",
       NetCall.getToken "Villa 1",
       NetCall.deployTREXSuite "Villa 1"
         { owner := "0x8888888888888888888888888888888888888888"
           name := "Luxury Villa A4"
           symbol := "LVA1"
           decimals := 0
           irs := addressZero
           onchainId := addressZero
           irAgents := ["0x9999999999999999999999999999999999999999",
                        "0x8888888888888888888888888888888888888888"]
           tokenAgents := ["0x9999999999999999999999999999999999999999",
                           "0x8888888888888888888888888888888888888888"]
           complianceModules := []
           complianceSettings := [] }] := by
  have h := getToken_failure_continues fixtureEnvReverting
    "0x7777777777777777777777777777777777777777"
    "0x8888888888888888888888888888888888888888"
    "Villa 1" "execution reverted" 0
    (by decide) (by decide) (by decide) (by decide) (by decide) rfl
  exact ⟨h.1, h.2.trans (by decide)⟩

/-- C8: An out-of-range decimals input (not an integer, negative, or above
18) is rejected with the validation error before any network call is
submitted; an in-range input parses to the integer itself and any deployment
transaction of the run carries exactly that value. -/
theorem decimals_validated_before_network (env : PropertyDeployEnv) (v : JSNumber)
    (fa : String)
    (hf : requireAddress "TREX factory address"
      (env.trexFactoryAddress.getD defaultFactoryPlaceholder) = Except.ok fa)
    (hv : env.propertyTokenDecimals = some v) :
    (jsNumberOutOfRange v = true →
      deployPropertyTokenMain env =
        ⟨[], [], Except.error "Token decimals must be an integer between 0 and 18"⟩) ∧
    (∀ m : Int, v = JSNumber.int m → 0 ≤ m → m ≤ 18 →
      parseDecimals env.propertyTokenDecimals 0 = Except.ok m ∧
      ∀ s det, NetCall.deployTREXSuite s det ∈ (deployPropertyTokenMain env).calls →
        det.decimals = m) := by
  constructor
  · intro hout
    have hp : parseDecimals env.propertyTokenDecimals 0 =
        Except.error "Token decimals must be an integer between 0 and 18" := by
      rw [hv]
      cases v with
      | int n =>
        simp only [jsNumberOutOfRange] at hout
        simp [parseDecimals, hout]
      | nonInteger => rfl
      | nan => rfl
    simp only [deployPropertyTokenMain, hf, hp]
  · intro m hm h0 h18
    subst hm
    have hp : parseDecimals env.propertyTokenDecimals 0 = Except.ok m := by
      rw [hv]
      simp only [parseDecimals, Option.getD_some]
      rw [if_neg (by simp; omega)]
    refine ⟨hp, ?_⟩
    intro s det hmem
    rcases deployPropertyTokenMain_shape env with hnil |
      ⟨fa', salt', owner', dec', -, -, -, hdec', hshape⟩
    · rw [hnil] at hmem; simp at hmem
    · rcases hshape with hcs | hcs | ⟨hcs, -⟩
      · rw [hcs] at hmem; simp at hmem
      · rw [hcs] at hmem; simp at hmem
      · rw [hcs] at hmem
        simp at hmem
        obtain ⟨-, hdet⟩ := hmem
        have hde : dec' = m := by
          rw [hp] at hdec'
          injection hdec' with hq
          exact hq.symm
        rw [hdet]
        simp [propertyTokenDetails, hde]

/-- Witness for C8: a NaN decimals input is rejected with no network calls,
while decimals 2 parses to 2. -/
theorem decimals_validated_before_network_witness :
    deployPropertyTokenMain fixtureEnvBadDecimals =
      ⟨[], [], Except.error "Token decimals must be an integer between 0 and 18"⟩ ∧
    parseDecimals fixtureEnvDecimals2.propertyTokenDecimals 0 = Except.ok 2 := by
  constructor
  · exact (decimals_validated_before_network fixtureEnvBadDecimals JSNumber.nan
      "0x7777777777777777777777777777777777777777" (by decide) rfl).1 rfl
  · exact ((decimals_validated_before_network fixtureEnvDecimals2 (JSNumber.int 2)
      "0x7777777777777777777777777777777777777777" (by decide) rfl).2 2 rfl
      (by decide) (by decide)).1

/-- C9: The salt used as the idempotency key (for the `getToken` probe and
the `deployTREXSuite` transaction) is the input salt with surrounding
whitespace trimmed, and a salt that is empty after trimming is rejected with
an error before any network call. -/
theorem salt_trimmed_and_nonempty (env : PropertyDeployEnv) (fa owner : String)
    (dec : Int)
    (hf : requireAddress "TREX factory address"
      (env.trexFactoryAddress.getD defaultFactoryPlaceholder) = Except.ok fa)
    (hdec : parseDecimals env.propertyTokenDecimals 0 = Except.ok dec)
    (ho : requireAddress "Property owner address"
      (env.propertyOwnerAddress.getD
        (env.secondarySignerAddress.getD env.deployerAddress)) = Except.ok owner) :
    (jsTrim (env.propertyTokenSalt.getD (resolvePropertyTokenName env)) = "" →
      deployPropertyTokenMain env =
        ⟨[], [], Except.error "Deployment salt cannot be empty"⟩) ∧
    (∀ s, NetCall.getToken s ∈ (deployPropertyTokenMain env).calls →
      s = jsTrim (env.propertyTokenSalt.getD (resolvePropertyTokenName env))) ∧
    (∀ s det, NetCall.deployTREXSuite s det ∈ (deployPropertyTokenMain env).calls →
      s = jsTrim (env.propertyTokenSalt.getD (resolvePropertyTokenName env))) := by
  by_cases h : jsTrim (env.propertyTokenSalt.getD (resolvePropertyTokenName env)) = ""
  · have hsalt : requireSalt (env.propertyTokenSalt.getD (resolvePropertyTokenName env)) =
        Except.error "Deployment salt cannot be empty" := by
      simp [requireSalt, h]
    have hrun : deployPropertyTokenMain env =
        ⟨[], [], Except.error "Deployment salt cannot be empty"⟩ := by
      simp only [deployPropertyTokenMain, hf, hdec, ho, hsalt]
    refine ⟨fun _ => hrun, ?_, ?_⟩
    · intro s hmem
      rw [hrun] at hmem
      simp at hmem
    · intro s det hmem
      rw [hrun] at hmem
      simp at hmem
  · refine ⟨fun hcon => absurd hcon h, ?_, ?_⟩
    · intro s hmem
      rcases deployPropertyTokenMain_shape env with hnil |
        ⟨fa', salt', owner', dec', -, hsalt', -, -, hshape⟩
      · rw [hnil] at hmem; simp at hmem
      · have hse : salt' = jsTrim (env.propertyTokenSalt.getD (resolvePropertyTokenName env)) :=
          requireSalt_ok hsalt'
        rcases hshape with hcs | hcs | ⟨hcs, -⟩
        · rw [hcs] at hmem; simp at hmem
        · rw [hcs] at hmem
          simp at hmem
          rw [hmem, hse]
        · rw [hcs] at hmem
          simp at hmem
          rw [hmem, hse]
    · intro s det hmem
      rcases deployPropertyTokenMain_shape env with hnil |
        ⟨fa', salt', owner', dec', -, hsalt', -, -, hshape⟩
      · rw [hnil] at hmem; simp at hmem
      · have hse : salt' = jsTrim (env.propertyTokenSalt.getD (resolvePropertyTokenName env)) :=
          requireSalt_ok hsalt'
        rcases hshape with hcs | hcs | ⟨hcs, -⟩
        · rw [hcs] at hmem; simp at hmem
        · rw [hcs] at hmem; simp at hmem
        · rw [hcs] at hmem
          simp at hmem
          rw [hmem.1, hse]

/-- Witness for C9: a whitespace-only salt is rejected before any network
call, and a valid run's probe uses the trimmed salt. -/
theorem salt_trimmed_and_nonempty_witness :
    deployPropertyTokenMain fixtureEnvBlankSalt =
      ⟨[], [], Except.error "Deployment salt cannot be empty"⟩ :=
  (salt_trimmed_and_nonempty fixtureEnvBlankSalt
      "0x7777777777777777777777777777777777777777"
      "0x8888888888888888888888888888888888888888" 0
      (by decide) (by decide) (by decide)).1 (by decide)

/-- C7 counterexample: the claim asserts the zero address fails validation,
but `requireAddress` contains no zero check — it accepts the zero address
and returns it checksummed (all-zero, so unchanged). -/
theorem requireAddress_accepts_zero :
    requireAddress "Property owner address"
        "0x0000000000000000000000000000000000000000" =
      Except.ok "0x0000000000000000000000000000000000000000" := by
  decide

/-- C7 (amended): For every hex-form address string (40 hex digits with an
optional `0x` prefix) that is checksum-normalizable — including the zero
address — `requireAddress` returns the EIP-55 checksummed form; a hex-form
string with an incorrect mixed-case checksum, and every string that is
neither hex-form nor ICAP-form, fails with the labelled validation error. -/
theorem requireAddress_spec (label s : String) :
    (matchesHexAddress s = true →
      (hasMixedCaseHex (ensure0x s) = false ∨ getChecksumAddress (ensure0x s) = ensure0x s) →
      requireAddress label s = Except.ok (getChecksumAddress (ensure0x s))) ∧
    (matchesHexAddress s = true → hasMixedCaseHex (ensure0x s) = true →
      getChecksumAddress (ensure0x s) ≠ ensure0x s →
      requireAddress label s = Except.error (label ++ " must be a valid Ethereum address")) ∧
    (matchesHexAddress s = false → matchesIcapAddress s = false →
      requireAddress label s = Except.error (label ++ " must be a valid Ethereum address")) := by
  refine ⟨?_, ?_, ?_⟩
  · intro hhex hok
    have hga : getAddressE s = Except.ok (getChecksumAddress (ensure0x s)) := by
      unfold getAddressE
      rw [if_pos hhex]
      rcases hok with hmc | hcs
      · rw [if_neg (by simp [hmc])]
      · rw [if_neg (by simp [hcs])]
    unfold requireAddress isAddress
    rw [hga]
    simp
  · intro hhex hmc hcs
    have hga : getAddressE s = Except.error "bad address checksum" := by
      unfold getAddressE
      rw [if_pos hhex, if_pos (by simp [hmc, hcs])]
    unfold requireAddress isAddress
    rw [hga]
    simp
  · intro hhex hicap
    have hga : getAddressE s = Except.error "invalid address" := by
      unfold getAddressE
      rw [if_neg (by simp [hhex]), if_neg (by simp [hicap])]
    unfold requireAddress isAddress
    rw [hga]
    simp

/-- Witness for C7 (amended): a valid unprefixed-case address is accepted and
checksummed, and a malformed string is rejected with the labelled error. -/
theorem requireAddress_spec_witness :
    requireAddress "TREX factory address"
        "0x1111111111111111111111111111111111111111" =
      Except.ok "0x1111111111111111111111111111111111111111" ∧
    requireAddress "TREX factory address" "not-an-address" =
      Except.error "TREX factory address must be a valid Ethereum address" := by
  constructor
  · have h := (requireAddress_spec "TREX factory address"
      "0x1111111111111111111111111111111111111111").1 (by decide) (Or.inl (by decide))
    exact h.trans (by decide)
  · exact (requireAddress_spec "TREX factory address" "not-an-address").2.2
      (by decide) (by decide)

/-- C10: Whenever the registration script submits its transaction, the
country code is the literal `[42]` for the single (wallet, identity) pair,
and no environment input influences it. -/
theorem registerIdentity_country_fixed (env : RegisterIdentityEnv)
    (call : BatchRegisterCall) (h : registerIdentityMain env = Except.ok call) :
    call.countries = [42] ∧
    ∃ w ident, call.wallets = [w] ∧ call.identities = [ident] ∧
      parseUserWallet env.userWallet = Except.ok w ∧
      env.userIdentityAddress = some ident := by
  by_cases hk : jsTruthy (env.agentPrivateKey.orElse fun _ => env.privateKey)
  · cases hwc : parseUserWallet env.userWallet with
    | error e =>
      have hrun : registerIdentityMain env = Except.error e := by
        unfold registerIdentityMain
        simp [hk, hwc]
      rw [hrun] at h
      exact Except.noConfusion h
    | ok w =>
      by_cases hid : jsTruthy env.userIdentityAddress
      · by_cases hisa : isAddress (env.userIdentityAddress.getD "")
        · have hrun : registerIdentityMain env =
              Except.ok ⟨env.identityRegistryAddress.getD
                  "0x51991f45EA1475C4C0eD37a9f615041a3b0bCc6C",
                [w], [env.userIdentityAddress.getD ""], [42]⟩ := by
            unfold registerIdentityMain
            simp [hk, hwc, hid, hisa]
          rw [hrun] at h
          injection h with hcall
          subst hcall
          refine ⟨rfl, w, env.userIdentityAddress.getD "", rfl, rfl, rfl, ?_⟩
          cases hu : env.userIdentityAddress with
          | none => rw [hu] at hid; simp [jsTruthy] at hid
          | some v => simp [hu]
        · have hrun : registerIdentityMain env = Except.error
              "Please paste the new Identity Contract Address from the first script." := by
            unfold registerIdentityMain
            simp [hk, hwc, hid, hisa]
          rw [hrun] at h
          exact Except.noConfusion h
      · have hrun : registerIdentityMain env = Except.error
            "Missing USER_IDENTITY_ADDRESS in environment. Provide the new Identity Contract Address from the first script." := by
          unfold registerIdentityMain
          simp [hk, hwc, hid]
        rw [hrun] at h
        exact Except.noConfusion h
  · have hrun : registerIdentityMain env = Except.error
        "Missing AGENT_PRIVATE_KEY (preferred) or PRIVATE_KEY in environment." := by
      unfold registerIdentityMain
      simp [hk]
    rw [hrun] at h
    exact Except.noConfusion h

/-- Witness for C10: a concrete registration run produces the
`batchRegisterIdentity([wallet], [identity], [42])` call. -/
theorem registerIdentity_country_fixed_witness :
    (registerIdentityMain fixtureRegisterEnv =
      Except.ok ⟨"0x51991f45EA1475C4C0eD37a9f615041a3b0bCc6C",
        ["0x1111111111111111111111111111111111111111"],
        ["0x2222222222222222222222222222222222222222"], [42]⟩) ∧
    (⟨"0x51991f45EA1475C4C0eD37a9f615041a3b0bCc6C",
        ["0x1111111111111111111111111111111111111111"],
        ["0x2222222222222222222222222222222222222222"], [42]⟩ :
      BatchRegisterCall).countries = [42] := by
  have hrun : registerIdentityMain fixtureRegisterEnv =
      Except.ok ⟨"0x51991f45EA1475C4C0eD37a9f615041a3b0bCc6C",
        ["0x1111111111111111111111111111111111111111"],
        ["0x2222222222222222222222222222222222222222"], [42]⟩ := by decide
  exact ⟨hrun, (registerIdentity_country_fixed fixtureRegisterEnv _ hrun).1⟩

/-- Witness for C4 at concrete inputs: an environment key overrides a
populated pool, and a missing key with an empty pool falls back to the
deployer with a warning. -/
theorem resolveRoleSigner_precedence_witness :
    resolveRoleSigner (some "0xkey") (some (SignerV.hardhatSigner 1))
        (SignerV.hardhatSigner 0) = (SignerV.walletSigner "0xkey", false) ∧
    warnCount (resolveAllRoleSigners (fun _ => none) [] (SignerV.hardhatSigner 0))
        RoleKey.tokenAgent = 1 := by
  refine ⟨?_, ?_⟩
  · exact (resolveRoleSigner_precedence (some "0xkey") "0xkey"
      (some (SignerV.hardhatSigner 1)) (SignerV.hardhatSigner 0) (fun _ => none) []
      RoleKey.tokenAgent).1 rfl (by decide)
  · have h := (resolveRoleSigner_precedence (some "0xkey") "0xkey"
      (some (SignerV.hardhatSigner 1)) (SignerV.hardhatSigner 0) (fun _ => none) []
      RoleKey.tokenAgent).2.2.2
    simpa using h

end TREX






